import Mathlib

/-!
Verification of the `simplelog` Go package (src/simplelog.go): a leveled
logging facade with five severity levels gated by one global threshold.

The embedding is shallow: Go `int` becomes `Int`; the five package-level
`*LogLevel` variables together with the mutable global `logThreshold`
become a `State` record; a method call becomes a function from the state
(and the method arguments) to the new state together with its observable
effects — the list of output lines written and an optional process-exit
code.  The `log.Logger` field of the Go struct is determined by the
binding's destination and its prefix string (set once in `init`), so an
output action is modelled as the pair (destination stream, rendered line).
The wall-clock timestamp that `log.LstdFlags` inserts is nondeterministic
input, so it is passed as an explicit string argument.
-/

namespace Simplelog

/-! ### Level constants (the Go `iota` block) -/

def LevelDebug : Int := 0
def LevelInfo : Int := 1
def LevelWarning : Int := 2
def LevelError : Int := 3
def LevelFatal : Int := 4

/-- The two process-standard streams a level can be bound to. -/
inductive Stream where
  | stdout : Stream
  | stderr : Stream
deriving DecidableEq, Repr

/-- The Go `LogLevel` struct.  The `logger` field is omitted: after `init`
it is exactly `log.New(destination, prfx, log.LstdFlags)`, i.e. it is
determined by the two fields kept here, and its observable behaviour is
captured by `renderLine` below.  (`prfx` is the struct's prefix string.) -/
structure LogLevel where
  prfx : String
  level : Int
  destination : Stream
deriving DecidableEq, Repr

/-! ### The five package-level bindings (the Go `var` block) -/

def Fatal : LogLevel := { prfx := "FATAL: ", level := LevelFatal, destination := Stream.stderr }
def Error : LogLevel := { prfx := "ERROR: ", level := LevelError, destination := Stream.stderr }
def Warning : LogLevel := { prfx := "WARNING: ", level := LevelWarning, destination := Stream.stderr }
def Info : LogLevel := { prfx := "INFO: ", level := LevelInfo, destination := Stream.stdout }
def Debug : LogLevel := { prfx := "DEBUG: ", level := LevelDebug, destination := Stream.stdout }

/-- The one error value of the package, `ErrInvalidThreshold`. -/
inductive SLError where
  | ErrInvalidThreshold : SLError
deriving DecidableEq, Repr

/-- The mutable package state: the five level bindings plus the global
`logThreshold`.  The bindings are mutable in Go (they are pointers set up
in `init`), so they are part of the state; the frame theorems prove the
operations never change them. -/
structure State where
  fatal : LogLevel
  error : LogLevel
  warning : LogLevel
  info : LogLevel
  debug : LogLevel
  logThreshold : Int
deriving DecidableEq, Repr

/-- The state right after package initialisation: the `var` block together
with `var logThreshold = LevelError` (the `init` func only fills each
binding's `logger` field, which the model keeps implicit). -/
def initialState : State :=
  { fatal := Fatal, error := Error, warning := Warning, info := Info, debug := Debug,
    logThreshold := LevelError }

/-- Selector naming the five package-level bindings. -/
inductive LvlName where
  | debug : LvlName
  | info : LvlName
  | warning : LvlName
  | error : LvlName
  | fatal : LvlName
deriving DecidableEq, Repr

/-- Look up one of the five bindings in the state. -/
def State.binding (s : State) : LvlName → LogLevel
  | LvlName.debug => s.debug
  | LvlName.info => s.info
  | LvlName.warning => s.warning
  | LvlName.error => s.error
  | LvlName.fatal => s.fatal

/-! ### Threshold operations -/

/-- `SetThreshold` (src/simplelog.go:53-59): rejects a value outside
`[LevelDebug, LevelFatal]` with `ErrInvalidThreshold`, otherwise stores it. -/
def SetThreshold (s : State) (t : Int) : State × Option SLError :=
  if t < LevelDebug ∨ t > LevelFatal then
    (s, some SLError.ErrInvalidThreshold)
  else
    ({ s with logThreshold := t }, none)

/-- `IsDebug` (src/simplelog.go:62-64): reads the state, returns a Bool,
changes nothing (purity is the function type itself). -/
def IsDebug (s : State) : Bool :=
  s.logThreshold == LevelDebug

/-- `LogThreshold` (src/simplelog.go:67-69). -/
def LogThreshold (s : State) : Int :=
  s.logThreshold

/-! ### Message construction (models of the Go `fmt`/`log` library calls) -/

/-- Model of `fmt.Sprintf` restricted to the `%v` verb over string
operands (character-by-character copy, substituting arguments in order).
No claim depends on the verb semantics, only on the message being a
function of the format string and the arguments. -/
def sprintfAux : List Char → List String → List Char
  | [], _ => []
  | '%' :: 'v' :: rest, a :: as => a.data ++ sprintfAux rest as
  | '%' :: 'v' :: rest, [] => '%' :: 'v' :: sprintfAux rest []
  | c :: rest, as => c :: sprintfAux rest as

def sprintf (format : String) (args : List String) : String :=
  String.mk (sprintfAux format.data args)

/-- Model of `fmt.Sprintln`: operands separated by spaces, newline added. -/
def sprintln (vs : List String) : String :=
  String.intercalate " " vs ++ "\n"

/-- `log.Logger.Output` appends a newline when the message lacks one. -/
def ensureNewline (s : String) : String :=
  if s.endsWith "\n" then s else s ++ "\n"

/-- One observable write action: which stream, and the full line. -/
structure Output where
  stream : Stream
  line : String
deriving DecidableEq, Repr

/-- The line a binding's logger emits for message `msg`: its prefix, the
`LstdFlags` date+time stamp `ts` (nondeterministic, passed in), then the
message with a final newline guaranteed. -/
def renderLine (l : LogLevel) (ts msg : String) : String :=
  l.prfx ++ ts ++ ensureNewline msg

/-! ### The write methods -/

/-- `LogLevel.Printf` (src/simplelog.go:74-81): if `l.level >= logThreshold`
the logger prints the formatted message; then, if the level is `LevelFatal`,
the process exits with status 1.  Result: (lines written, exit status);
the write happens before the exit. -/
def LogLevel.Printf (l : LogLevel) (th : Int) (ts format : String) (args : List String) :
    List Output × Option Int :=
  ((if l.level ≥ th then [⟨l.destination, renderLine l ts (sprintf format args)⟩] else []),
   (if l.level = LevelFatal then some 1 else none))

/-- `LogLevel.Println` (src/simplelog.go:86-93): same gate and same exit
step as `Printf`, with `fmt.Sprintln`-style message construction. -/
def LogLevel.Println (l : LogLevel) (th : Int) (ts : String) (vs : List String) :
    List Output × Option Int :=
  ((if l.level ≥ th then [⟨l.destination, renderLine l ts (sprintln vs)⟩] else []),
   (if l.level = LevelFatal then some 1 else none))

/-- A `Printf` call on one of the five package bindings, as a step on the
package state.  The method body assigns to no global, so the state
component is returned unchanged. -/
def writePrintf (s : State) (n : LvlName) (ts format : String) (args : List String) :
    State × List Output × Option Int :=
  (s, (s.binding n).Printf s.logThreshold ts format args)

/-- A `Println` call on one of the five package bindings, as a step on the
package state. -/
def writePrintln (s : State) (n : LvlName) (ts : String) (vs : List String) :
    State × List Output × Option Int :=
  (s, (s.binding n).Println s.logThreshold ts vs)

/-! ### Reachable states -/

/-- States reachable from package initialisation through the public
operations (`LogThreshold` and `IsDebug` read the state without producing
a successor, so they contribute no constructor). -/
inductive Reachable : State → Prop where
  | init : Reachable initialState
  | set : ∀ s t, Reachable s → Reachable (SetThreshold s t).1
  | printf : ∀ s n ts format args, Reachable s →
      Reachable (writePrintf s n ts format args).1
  | println : ∀ s n ts vs, Reachable s →
      Reachable (writePrintln s n ts vs).1

/-! ### Spec-side tables (for the refinement claim C6) -/

/-- From the spec's destination table: Debug and Info go to the
standard-output stream, Warning, Error and Fatal to standard error. -/
def specStreamOf : LvlName → Stream
  | LvlName.debug => Stream.stdout
  | LvlName.info => Stream.stdout
  | LvlName.warning => Stream.stderr
  | LvlName.error => Stream.stderr
  | LvlName.fatal => Stream.stderr

/-- From the spec's prefix table: the fixed prefix string of each level. -/
def specPrefixOf : LvlName → String
  | LvlName.debug => "DEBUG: "
  | LvlName.info => "INFO: "
  | LvlName.warning => "WARNING: "
  | LvlName.error => "ERROR: "
  | LvlName.fatal => "FATAL: "

/-! ### Reachability invariant (shared helper) -/

/-- In every reachable state the five bindings are still the initial ones
and the threshold lies in `[LevelDebug, LevelFatal]`. -/
theorem reachable_inv (s : State) (h : Reachable s) :
    s.fatal = Fatal ∧ s.error = Error ∧ s.warning = Warning ∧ s.info = Info ∧
    s.debug = Debug ∧ LevelDebug ≤ s.logThreshold ∧ s.logThreshold ≤ LevelFatal := by
  induction h with
  | init =>
      refine ⟨rfl, rfl, rfl, rfl, rfl, ?_, ?_⟩ <;> decide
  | set s t _ ih =>
      by_cases hc : t < LevelDebug ∨ t > LevelFatal
      · simpa [SetThreshold, hc] using ih
      · obtain ⟨h1, h2, h3, h4, h5, _, _⟩ := ih
        have hif : (SetThreshold s t).1 = { s with logThreshold := t } := by
          simp [SetThreshold, hc]
        rw [hif]
        push_neg at hc
        exact ⟨h1, h2, h3, h4, h5, hc.1, hc.2⟩
  | printf s n ts format args _ ih => simpa [writePrintf] using ih
  | println s n ts vs _ ih => simpa [writePrintln] using ih

/-! ### Claim theorems -/

/-- Claim C1: a write (`Printf` or `Println`) at a level emits an output
line exactly when the level's rank is at least the current threshold; when
the rank is below the threshold no output is produced on either stream and
the state is unchanged (the state is in fact unchanged in every case). -/
theorem write_gating (s : State) (n : LvlName) (ts format : String)
    (args vs : List String) :
    ((writePrintf s n ts format args).1 = s ∧ (writePrintln s n ts vs).1 = s)
    ∧ ((writePrintf s n ts format args).2.1 ≠ [] ↔ s.logThreshold ≤ (s.binding n).level)
    ∧ ((writePrintln s n ts vs).2.1 ≠ [] ↔ s.logThreshold ≤ (s.binding n).level)
    ∧ (s.logThreshold ≤ (s.binding n).level →
        (writePrintf s n ts format args).2.1.length = 1
        ∧ (writePrintln s n ts vs).2.1.length = 1)
    ∧ ((s.binding n).level < s.logThreshold →
        (writePrintf s n ts format args).2.1 = [] ∧ (writePrintln s n ts vs).2.1 = []) := by
  by_cases hg : s.logThreshold ≤ (s.binding n).level <;>
    simp [writePrintf, writePrintln, LogLevel.Printf, LogLevel.Println, hg, ge_iff_le]

/-- Claim C1 witness: at the initial state (threshold `LevelError`), an
Info-level `Printf` and `Println` are suppressed. -/
theorem write_gating_witness :
    (initialState.binding LvlName.info).level < initialState.logThreshold
    ∧ (writePrintf initialState LvlName.info "ts " "x" []).2.1 = []
    ∧ (writePrintln initialState LvlName.info "ts " ["x"]).2.1 = [] := by
  refine ⟨by decide, ?_, ?_⟩
  · exact ((write_gating initialState LvlName.info "ts " "x" [] ["x"]).2.2.2.2 (by decide)).1
  · exact ((write_gating initialState LvlName.info "ts " "x" [] ["x"]).2.2.2.2 (by decide)).2

/-- Claim C2: every write at a Fatal-rank level terminates the process with
exit status 1 after the gated write step, regardless of the current
threshold — even one large enough to suppress the textual output. -/
theorem fatal_write_exits (l : LogLevel) (th : Int) (ts format : String)
    (args vs : List String) (h : l.level = LevelFatal) :
    (l.Printf th ts format args).2 = some 1 ∧ (l.Println th ts vs).2 = some 1 := by
  simp [LogLevel.Printf, LogLevel.Println, h]

/-- Claim C2 witness: the `Fatal` binding exits with status 1 even under a
threshold (999) that suppresses its output. -/
theorem fatal_write_exits_witness :
    (Fatal.Printf 999 "ts " "x" []).2 = some 1
    ∧ (Fatal.Println 999 "ts " ["x"]).2 = some 1
    ∧ (Fatal.Printf 999 "ts " "x" []).1 = [] :=
  ⟨(fatal_write_exits Fatal 999 "ts " "x" [] ["x"] (by decide)).1,
   (fatal_write_exits Fatal 999 "ts " "x" [] ["x"] (by decide)).2,
   by decide⟩

/-- Claim C3: for every rank outside `[LevelDebug, LevelFatal]`,
`SetThreshold` returns `ErrInvalidThreshold` and changes nothing — in
particular `LogThreshold` afterwards returns the same value as before. -/
theorem setThreshold_invalid (s : State) (t : Int)
    (h : t < LevelDebug ∨ t > LevelFatal) :
    (SetThreshold s t).2 = some SLError.ErrInvalidThreshold
    ∧ (SetThreshold s t).1 = s
    ∧ LogThreshold (SetThreshold s t).1 = LogThreshold s := by
  simp [SetThreshold, h]

/-- Claim C3 witness: `SetThreshold 999` on the initial state fails and
leaves the threshold at its prior value. -/
theorem setThreshold_invalid_witness :
    (SetThreshold initialState 999).2 = some SLError.ErrInvalidThreshold
    ∧ (SetThreshold initialState 999).1 = initialState
    ∧ LogThreshold (SetThreshold initialState 999).1 = LogThreshold initialState :=
  setThreshold_invalid initialState 999 (by decide)

/-- Claim C4: for every rank inside `[LevelDebug, LevelFatal]`,
`SetThreshold` succeeds (returns no error) and `LogThreshold` subsequently
returns that rank. -/
theorem setThreshold_valid (s : State) (t : Int)
    (h1 : LevelDebug ≤ t) (h2 : t ≤ LevelFatal) :
    (SetThreshold s t).2 = none ∧ LogThreshold (SetThreshold s t).1 = t := by
  have hc : ¬(t < LevelDebug ∨ t > LevelFatal) := by omega
  simp [SetThreshold, LogThreshold, hc]

/-- Claim C4 witness: setting the threshold to `LevelDebug` on the initial
state succeeds, and `LogThreshold` then returns `LevelDebug`. -/
theorem setThreshold_valid_witness :
    (SetThreshold initialState LevelDebug).2 = none
    ∧ LogThreshold (SetThreshold initialState LevelDebug).1 = LevelDebug :=
  setThreshold_valid initialState LevelDebug (by decide) (by decide)

/-- Claim C5: the threshold starts at `LevelError` and in every reachable
state lies within `[LevelDebug, LevelFatal]`; hence the Fatal binding's
rank is at least the threshold in every reachable state, so a Fatal-level
write always passes the gate and emits its message. -/
theorem threshold_invariant :
    initialState.logThreshold = LevelError
    ∧ ∀ s, Reachable s →
        LevelDebug ≤ s.logThreshold ∧ s.logThreshold ≤ LevelFatal
        ∧ s.logThreshold ≤ (s.binding LvlName.fatal).level
        ∧ ∀ ts format args vs,
            (writePrintf s LvlName.fatal ts format args).2.1 ≠ []
            ∧ (writePrintln s LvlName.fatal ts vs).2.1 ≠ [] := by
  refine ⟨rfl, fun s h => ?_⟩
  obtain ⟨hf, _, _, _, _, hlo, hhi⟩ := reachable_inv s h
  have hlev : (s.binding LvlName.fatal).level = LevelFatal := by
    simp [State.binding, hf, Fatal]
  have hg : s.logThreshold ≤ (s.binding LvlName.fatal).level := by rw [hlev]; exact hhi
  refine ⟨hlo, hhi, hg, fun ts format args vs => ?_⟩
  constructor <;>
    simp [writePrintf, writePrintln, LogLevel.Printf, LogLevel.Println, ge_iff_le, hg]

/-- Claim C5 witness: the invariant instantiated at the initial state. -/
theorem threshold_invariant_witness :
    LevelDebug ≤ initialState.logThreshold ∧ initialState.logThreshold ≤ LevelFatal
    ∧ initialState.logThreshold ≤ (initialState.binding LvlName.fatal).level
    ∧ ∀ ts format args vs,
        (writePrintf initialState LvlName.fatal ts format args).2.1 ≠ []
        ∧ (writePrintln initialState LvlName.fatal ts vs).2.1 ≠ [] :=
  threshold_invariant.2 initialState Reachable.init

/-- Claim C6: whenever gating allows a write at one of the five levels in a
reachable state, the emitted line is exactly the level's fixed prefix from
the spec's table, then the timestamp, then the message, and it goes to the
level's fixed destination from the spec's table (Debug/Info to stdout, the
rest to stderr), independent of the threshold. -/
theorem output_prefix_destination (s : State) (n : LvlName) (ts format : String)
    (args vs : List String) (h : Reachable s)
    (hg : s.logThreshold ≤ (s.binding n).level) :
    (writePrintf s n ts format args).2.1 =
      [⟨specStreamOf n, specPrefixOf n ++ ts ++ ensureNewline (sprintf format args)⟩]
    ∧ (writePrintln s n ts vs).2.1 =
      [⟨specStreamOf n, specPrefixOf n ++ ts ++ ensureNewline (sprintln vs)⟩] := by
  obtain ⟨hf, he, hw, hi, hd, _, _⟩ := reachable_inv s h
  cases n <;>
    simp_all [writePrintf, writePrintln, LogLevel.Printf, LogLevel.Println, renderLine,
      State.binding, specStreamOf, specPrefixOf, Fatal, Error, Warning, Info, Debug,
      ge_iff_le, String.append_assoc]

/-- Claim C6 witness: at the initial state (threshold `LevelError`) an
Error-level write is emitted with the `ERROR: ` prefix on stderr. -/
theorem output_prefix_destination_witness :
    (writePrintf initialState LvlName.error "ts " "x" []).2.1 =
      [⟨specStreamOf LvlName.error, specPrefixOf LvlName.error ++ "ts " ++ ensureNewline (sprintf "x" [])⟩]
    ∧ (writePrintln initialState LvlName.error "ts " ["y"]).2.1 =
      [⟨specStreamOf LvlName.error, specPrefixOf LvlName.error ++ "ts " ++ ensureNewline (sprintln ["y"])⟩] :=
  output_prefix_destination initialState LvlName.error "ts " "x" [] ["y"]
    Reachable.init (by decide)

/-- Claim C7: for every level, threshold and message, `Printf` and
`Println` apply the same gate (emit iff rank is at least the threshold),
produce a line of the same shape (prefix, then timestamp, then message) on
the same destination, and have the same exit behaviour. -/
theorem printf_println_agree (l : LogLevel) (th : Int) (ts format : String)
    (args vs : List String) :
    ((l.Printf th ts format args).1 ≠ [] ↔ (l.Println th ts vs).1 ≠ [])
    ∧ (l.Printf th ts format args).2 = (l.Println th ts vs).2
    ∧ (th ≤ l.level →
        (l.Printf th ts format args).1 =
          [⟨l.destination, l.prfx ++ ts ++ ensureNewline (sprintf format args)⟩]
        ∧ (l.Println th ts vs).1 =
          [⟨l.destination, l.prfx ++ ts ++ ensureNewline (sprintln vs)⟩])
    ∧ (¬ th ≤ l.level →
        (l.Printf th ts format args).1 = [] ∧ (l.Println th ts vs).1 = []) := by
  by_cases hg : th ≤ l.level <;>
    simp [LogLevel.Printf, LogLevel.Println, renderLine, hg, ge_iff_le,
      String.append_assoc]

/-- Claim C7 witness: with threshold `LevelDebug`, an Info-level `Printf`
and `Println` both emit one line of the common shape on stdout. -/
theorem printf_println_agree_witness :
    (Info.Printf LevelDebug "ts " "x" []).1 =
      [⟨Info.destination, Info.prfx ++ "ts " ++ ensureNewline (sprintf "x" [])⟩]
    ∧ (Info.Println LevelDebug "ts " ["y"]).1 =
      [⟨Info.destination, Info.prfx ++ "ts " ++ ensureNewline (sprintln ["y"])⟩] :=
  (printf_println_agree Info LevelDebug "ts " "x" [] ["y"]).2.2.1 (by decide)

/-- Claim C8: `IsDebug` returns `true` exactly when the current threshold
equals `LevelDebug`, and `false` for every other threshold value; it is a
pure function of the state (its type admits no state change). -/
theorem isDebug_iff (s : State) :
    (IsDebug s = true ↔ s.logThreshold = LevelDebug)
    ∧ (s.logThreshold ≠ LevelDebug → IsDebug s = false) := by
  constructor
  · simp [IsDebug]
  · intro h
    simp [IsDebug, h]

/-- Claim C8 witness: at the initial state (threshold `LevelError`),
`IsDebug` returns `false`; after a successful `SetThreshold LevelDebug`
it returns `true`. -/
theorem isDebug_iff_witness :
    IsDebug initialState = false
    ∧ IsDebug (SetThreshold initialState LevelDebug).1 = true :=
  ⟨(isDebug_iff initialState).2 (by decide),
   ((isDebug_iff (SetThreshold initialState LevelDebug).1).1).mpr (by decide)⟩

/-- Claim C9: a write at any of the four non-Fatal levels never exits the
process, whether or not the message is emitted, and an exit is produced
only by a write at the Fatal level. -/
theorem non_fatal_no_exit (s : State) (n : LvlName) (ts format : String)
    (args vs : List String) (h : Reachable s) :
    (n ≠ LvlName.fatal →
      (writePrintf s n ts format args).2.2 = none
      ∧ (writePrintln s n ts vs).2.2 = none)
    ∧ ((writePrintf s n ts format args).2.2 ≠ none → n = LvlName.fatal)
    ∧ ((writePrintln s n ts vs).2.2 ≠ none → n = LvlName.fatal) := by
  obtain ⟨hf, he, hw, hi, hd, _, _⟩ := reachable_inv s h
  cases n <;>
    simp_all [writePrintf, writePrintln, LogLevel.Printf, LogLevel.Println,
      State.binding, Fatal, Error, Warning, Info, Debug,
      LevelDebug, LevelInfo, LevelWarning, LevelError, LevelFatal]

/-- Claim C9 witness: at the initial state an Info-level `Printf` (which is
suppressed) and a Warning-level `Println` both produce no exit. -/
theorem non_fatal_no_exit_witness :
    (writePrintf initialState LvlName.info "ts " "x" []).2.2 = none
    ∧ (writePrintln initialState LvlName.warning "ts " ["y"]).2.2 = none :=
  ⟨((non_fatal_no_exit initialState LvlName.info "ts " "x" [] ["y"]
      Reachable.init).1 (by decide)).1,
   ((non_fatal_no_exit initialState LvlName.warning "ts " "x" [] ["y"]
      Reachable.init).1 (by decide)).2⟩

/-- Claim C10: no operation mutates the level bindings, `Printf` and
`Println` leave the whole state unchanged whether or not they emit, and a
failed `SetThreshold` leaves the whole state unchanged; `LogThreshold` and
`IsDebug` are pure functions of the state.  Only a successful
`SetThreshold` can change the threshold. -/
theorem frame_ops (s : State) (t : Int) (n : LvlName) (ts format : String)
    (args vs : List String) :
    ((SetThreshold s t).1.fatal = s.fatal ∧ (SetThreshold s t).1.error = s.error
      ∧ (SetThreshold s t).1.warning = s.warning ∧ (SetThreshold s t).1.info = s.info
      ∧ (SetThreshold s t).1.debug = s.debug)
    ∧ (writePrintf s n ts format args).1 = s
    ∧ (writePrintln s n ts vs).1 = s
    ∧ ((SetThreshold s t).2 ≠ none → (SetThreshold s t).1 = s) := by
  by_cases hc : t < LevelDebug ∨ t > LevelFatal <;>
    simp [SetThreshold, writePrintf, writePrintln, hc]

/-- Claim C10 witness: the frame conditions at the initial state, with the
failed `SetThreshold 999` leaving the state unchanged. -/
theorem frame_ops_witness :
    (writePrintf initialState LvlName.debug "ts " "x" []).1 = initialState
    ∧ (SetThreshold initialState 999).1 = initialState :=
  ⟨(frame_ops initialState 999 LvlName.debug "ts " "x" [] ["y"]).2.1,
   (frame_ops initialState 999 LvlName.debug "ts " "x" [] ["y"]).2.2.2 (by decide)⟩

end Simplelog
